import Mathlib

/-!
Shallow embedding of the longitudinal vehicle model from
`Longitudinal_Vehicle_Model.ipynb` (class `Vehicle` with `__init__`,
`reset` and `step`, plus the 20-second ramp-scenario driving harness),
together with proofs of the specified properties.

Real numbers model the Python floats.  The `Vehicle` structure carries
both the constant physical parameters set by `__init__` and the five
mutable state fields, mirroring the Python instance attributes.
-/

/-- The `Vehicle` instance attributes: the constant parameters set by
`__init__` followed by the five mutable state fields and the sampling
time. -/
structure Vehicle where
  a_0 : ℝ
  a_1 : ℝ
  a_2 : ℝ
  GR : ℝ
  r_e : ℝ
  J_e : ℝ
  m : ℝ
  g : ℝ
  c_a : ℝ
  c_r1 : ℝ
  c : ℝ
  F_max : ℝ
  x : ℝ
  v : ℝ
  a : ℝ
  w_e : ℝ
  w_e_dot : ℝ
  sample_time : ℝ

/-- `Vehicle.__init__`: the freshly constructed model, with the fixed
parameter values and initial state from the notebook. -/
def mkVehicle : Vehicle where
  a_0 := 400
  a_1 := 0.1
  a_2 := -0.0002
  GR := 0.35
  r_e := 0.3
  J_e := 10
  m := 2000
  g := 9.81
  c_a := 1.36
  c_r1 := 0.01
  c := 10000
  F_max := 10000
  x := 0
  v := 5
  a := 0
  w_e := 100
  w_e_dot := 0
  sample_time := 0.01

/-- `Vehicle.reset`: restores the five mutable state variables to their
initial values, leaving the parameters untouched. -/
def Vehicle.reset (veh : Vehicle) : Vehicle :=
  { veh with x := 0, v := 5, a := 0, w_e := 100, w_e_dot := 0 }

/-- `Vehicle.step(throttle, alpha)`: straight-line translation of the
notebook's body.  The state is first advanced with the stored
derivatives, then the new derivatives are computed from the
post-integration state. -/
noncomputable def Vehicle.step (veh : Vehicle) (throttle alpha : ℝ) : Vehicle :=
  let x' := veh.x + veh.v * veh.sample_time
  let v' := veh.v + veh.a * veh.sample_time
  let w_e' := veh.w_e + veh.w_e_dot * veh.sample_time
  let omega_w := veh.GR * w_e'
  let s := omega_w * veh.r_e / v' - 1
  let F_x := if |s| < 1 then veh.c * s else veh.F_max
  let F_g := veh.m * veh.g * Real.sin alpha
  let R_x := veh.c_r1 * v'
  let F_aero := veh.c_a * v' ^ 2
  let F_load := F_aero + R_x + F_g
  let T_e := throttle * (veh.a_0 + veh.a_1 * w_e' + veh.a_2 * w_e' ^ 2)
  { veh with
    x := x'
    v := v'
    w_e := w_e'
    a := (F_x - F_load) / veh.m
    w_e_dot := (T_e - veh.GR * veh.r_e * F_load) / veh.J_e }

/-- The integration phase of `step` in isolation: position, velocity and
engine speed advanced with the derivatives stored by the previous call. -/
def Vehicle.integrate (veh : Vehicle) : Vehicle :=
  { veh with
    x := veh.x + veh.v * veh.sample_time
    v := veh.v + veh.a * veh.sample_time
    w_e := veh.w_e + veh.w_e_dot * veh.sample_time }

/-- The slip value `s = omega_w * r_e / v - 1` with `omega_w = GR * w_e`. -/
noncomputable def Vehicle.slip (veh : Vehicle) : ℝ :=
  veh.GR * veh.w_e * veh.r_e / veh.v - 1

/-- The tire force `F_x = c * s if abs(s) < 1 else F_max`. -/
noncomputable def Vehicle.tireForce (veh : Vehicle) : ℝ :=
  if |veh.slip| < 1 then veh.c * veh.slip else veh.F_max

/-- The total load force `F_load = F_aero + R_x + F_g`. -/
noncomputable def Vehicle.loadForce (veh : Vehicle) (alpha : ℝ) : ℝ :=
  veh.c_a * veh.v ^ 2 + veh.c_r1 * veh.v + veh.m * veh.g * Real.sin alpha

/-- The engine torque `T_e = throttle * (a_0 + a_1 * w_e + a_2 * w_e ** 2)`. -/
noncomputable def Vehicle.engineTorque (veh : Vehicle) (throttle : ℝ) : ℝ :=
  throttle * (veh.a_0 + veh.a_1 * veh.w_e + veh.a_2 * veh.w_e ^ 2)

theorem Vehicle.step_x (veh : Vehicle) (th al : ℝ) :
    (veh.step th al).x = veh.x + veh.v * veh.sample_time := rfl

theorem Vehicle.step_v (veh : Vehicle) (th al : ℝ) :
    (veh.step th al).v = veh.v + veh.a * veh.sample_time := rfl

theorem Vehicle.step_w_e (veh : Vehicle) (th al : ℝ) :
    (veh.step th al).w_e = veh.w_e + veh.w_e_dot * veh.sample_time := rfl

theorem Vehicle.step_a (veh : Vehicle) (th al : ℝ) :
    (veh.step th al).a =
      (veh.integrate.tireForce - veh.integrate.loadForce al) / veh.m := rfl

theorem Vehicle.step_w_e_dot (veh : Vehicle) (th al : ℝ) :
    (veh.step th al).w_e_dot =
      (veh.integrate.engineTorque th -
        veh.GR * veh.r_e * veh.integrate.loadForce al) / veh.J_e := rfl

theorem Vehicle.step_sample_time (veh : Vehicle) (th al : ℝ) :
    (veh.step th al).sample_time = veh.sample_time := rfl

/-- Running a finite sequence of `step` calls with the given
`(throttle, alpha)` input pairs, as the notebook's driving loops do. -/
noncomputable def run (veh : Vehicle) (inputs : List (ℝ × ℝ)) : Vehicle :=
  inputs.foldl (fun s p => s.step p.1 p.2) veh

/-- The trajectory of post-call states produced by a sequence of
`(throttle, alpha)` inputs. -/
noncomputable def traj (veh : Vehicle) : List (ℝ × ℝ) → List Vehicle
  | [] => []
  | p :: rest => veh.step p.1 p.2 :: traj (veh.step p.1 p.2) rest

/-- `step` with Python's float-division partiality made explicit: a float
division by zero raises `ZeroDivisionError`, so the call fails when the
post-integration velocity is zero (the slip computation divides by it),
or when `m` or `J_e` is zero (the derivative updates divide by them). -/
noncomputable def Vehicle.stepChecked (veh : Vehicle) (throttle alpha : ℝ) :
    Option Vehicle :=
  if veh.v + veh.a * veh.sample_time = 0 then none
  else if veh.m = 0 then none
  else if veh.J_e = 0 then none
  else some (veh.step throttle alpha)

/-- The parameter fields hold the constants assigned by `__init__`. -/
def Vehicle.hasDefaultParams (veh : Vehicle) : Prop :=
  veh.a_0 = 400 ∧ veh.a_1 = 0.1 ∧ veh.a_2 = -0.0002 ∧ veh.GR = 0.35 ∧
  veh.r_e = 0.3 ∧ veh.J_e = 10 ∧ veh.m = 2000 ∧ veh.g = 9.81 ∧
  veh.c_a = 1.36 ∧ veh.c_r1 = 0.01 ∧ veh.c = 10000 ∧ veh.F_max = 10000 ∧
  veh.sample_time = 0.01

theorem mkVehicle_hasDefaultParams : mkVehicle.hasDefaultParams :=
  ⟨rfl, rfl, rfl, rfl, rfl, rfl, rfl, rfl, rfl, rfl, rfl, rfl, rfl⟩

/-- Python's `math.atan2(y, x)`. -/
noncomputable def atan2 (y x : ℝ) : ℝ :=
  if 0 < x then Real.arctan (y / x)
  else if x < 0 ∧ 0 ≤ y then Real.arctan (y / x) + Real.pi
  else if x < 0 ∧ y < 0 then Real.arctan (y / x) - Real.pi
  else if x = 0 ∧ 0 < y then Real.pi / 2
  else if x = 0 ∧ y < 0 then -(Real.pi / 2)
  else 0

/-- Number of samples of the 20-second ramp scenario at `dt = 0.01`:
`n = t_data.shape[0] = 2000`. -/
def nSteps : ℕ := 2000

/-- The ramp scenario's `throttle_data`: `0.2 + 0.3 * i / (n//4)` on the
first quarter, `0.5` on the middle half, `0.5 - 0.001 * j` on the last
quarter (where `j` counts from the start of that quarter). -/
noncomputable def throttleData (i : ℕ) : ℝ :=
  if i < nSteps / 4 then 0.2 + 0.3 * (i : ℝ) / ((nSteps / 4 : ℕ) : ℝ)
  else if i < 3 * nSteps / 4 then 0.5
  else 0.5 - 0.001 * ((i - 3 * nSteps / 4 : ℕ) : ℝ)

/-- The ramp scenario's incline: `alpha_data[i] = atan2(3, 60)` when the
position is below 60, `atan2(9, 90)` when it is below 150, and otherwise
the entry keeps its zero initialization. -/
noncomputable def alphaProfile (x : ℝ) : ℝ :=
  if x < 60 then atan2 3 60
  else if x < 150 then atan2 9 90
  else 0

theorem run_sample_time (l : List (ℝ × ℝ)) (veh : Vehicle) :
    (run veh l).sample_time = veh.sample_time := by
  induction l generalizing veh with
  | nil => rfl
  | cons p rest ih => exact ih (veh.step p.1 p.2)

/-- Claim C1: every `step(throttle, incline)` call first integrates with
the derivative values stored by the previous call (`x += v*dt`,
`v += a*dt`, `w_e += w_e_dot*dt`) and only afterwards recomputes and
stores `a = (F_x - F_load)/m` and `w_e_dot = (T_e - GR*r_e*F_load)/J_e`
from the post-integration state: a lagged (semi-implicit) Euler scheme,
not a same-step derivative evaluation. -/
theorem step_uses_lagged_derivatives (veh : Vehicle) (th al : ℝ) :
    (veh.step th al).x = veh.x + veh.v * veh.sample_time ∧
    (veh.step th al).v = veh.v + veh.a * veh.sample_time ∧
    (veh.step th al).w_e = veh.w_e + veh.w_e_dot * veh.sample_time ∧
    (veh.step th al).a =
      (veh.integrate.tireForce - veh.integrate.loadForce al) / veh.m ∧
    (veh.step th al).w_e_dot =
      (veh.integrate.engineTorque th -
        veh.GR * veh.r_e * veh.integrate.loadForce al) / veh.J_e :=
  ⟨rfl, rfl, rfl, rfl, rfl⟩

/-- Claim C3: after any finite sequence of `step` calls with arbitrary
inputs, `reset()` restores the five mutable state fields to those of a
freshly constructed model: position 0, velocity 5, acceleration 0,
engine speed 100, engine angular acceleration 0. -/
theorem reset_restores_initial_state (inputs : List (ℝ × ℝ)) :
    (run mkVehicle inputs).reset.x = mkVehicle.x ∧
    (run mkVehicle inputs).reset.v = mkVehicle.v ∧
    (run mkVehicle inputs).reset.a = mkVehicle.a ∧
    (run mkVehicle inputs).reset.w_e = mkVehicle.w_e ∧
    (run mkVehicle inputs).reset.w_e_dot = mkVehicle.w_e_dot ∧
    mkVehicle.x = 0 ∧ mkVehicle.v = 5 ∧ mkVehicle.a = 0 ∧
    mkVehicle.w_e = 100 ∧ mkVehicle.w_e_dot = 0 :=
  ⟨rfl, rfl, rfl, rfl, rfl, rfl, rfl, rfl, rfl, rfl⟩

/-- Claim C5: `step` is deterministic: two runs from identical starting
states with identical input sequences produce identical trajectories of
post-call states. -/
theorem step_deterministic (s₁ s₂ : Vehicle) (l₁ l₂ : List (ℝ × ℝ))
    (hs : s₁ = s₂) (hl : l₁ = l₂) : traj s₁ l₁ = traj s₂ l₂ := by
  rw [hs, hl]

/-- Witness for C5 at a concrete state and input list. -/
theorem step_deterministic_witness :
    traj mkVehicle [(0.2, 0)] = traj mkVehicle [(0.2, 0)] :=
  step_deterministic mkVehicle mkVehicle [(0.2, 0)] [(0.2, 0)] rfl rfl

/-- Claim C7: the constant parameters are left unchanged by every call
to `step` and `reset`; only the five mutable state fields are written. -/
theorem step_reset_preserve_params (veh : Vehicle) (th al : ℝ) :
    ((veh.step th al).a_0 = veh.a_0 ∧ (veh.step th al).a_1 = veh.a_1 ∧
     (veh.step th al).a_2 = veh.a_2 ∧ (veh.step th al).GR = veh.GR ∧
     (veh.step th al).r_e = veh.r_e ∧ (veh.step th al).J_e = veh.J_e ∧
     (veh.step th al).m = veh.m ∧ (veh.step th al).g = veh.g ∧
     (veh.step th al).c_a = veh.c_a ∧ (veh.step th al).c_r1 = veh.c_r1 ∧
     (veh.step th al).c = veh.c ∧ (veh.step th al).F_max = veh.F_max ∧
     (veh.step th al).sample_time = veh.sample_time) ∧
    (veh.reset.a_0 = veh.a_0 ∧ veh.reset.a_1 = veh.a_1 ∧
     veh.reset.a_2 = veh.a_2 ∧ veh.reset.GR = veh.GR ∧
     veh.reset.r_e = veh.r_e ∧ veh.reset.J_e = veh.J_e ∧
     veh.reset.m = veh.m ∧ veh.reset.g = veh.g ∧
     veh.reset.c_a = veh.c_a ∧ veh.reset.c_r1 = veh.c_r1 ∧
     veh.reset.c = veh.c ∧ veh.reset.F_max = veh.F_max ∧
     veh.reset.sample_time = veh.sample_time) :=
  ⟨⟨rfl, rfl, rfl, rfl, rfl, rfl, rfl, rfl, rfl, rfl, rfl, rfl, rfl⟩,
   ⟨rfl, rfl, rfl, rfl, rfl, rfl, rfl, rfl, rfl, rfl, rfl, rfl, rfl⟩⟩

/-- Claim C10: the throttle argument does not influence the same call's
kinematic outputs: two `step` calls from identical states with the same
incline but different throttles agree on post-call position, velocity,
acceleration and engine speed; only the stored `w_e_dot` can depend on
the throttle, which enters solely through the engine torque `T_e`. -/
theorem throttle_affects_only_engine_dot (veh : Vehicle) (al th₁ th₂ : ℝ) :
    (veh.step th₁ al).x = (veh.step th₂ al).x ∧
    (veh.step th₁ al).v = (veh.step th₂ al).v ∧
    (veh.step th₁ al).a = (veh.step th₂ al).a ∧
    (veh.step th₁ al).w_e = (veh.step th₂ al).w_e :=
  ⟨rfl, rfl, rfl, rfl⟩

/-- Claim C9: right after construction or reset the stored derivatives
are zero, so the first `step` call, whatever its throttle and incline,
leaves velocity at 5 and engine speed at 100, sets position to
`5 * 0.01 = 0.05`, and its inputs affect only the stored derivatives. -/
theorem first_step_kinematics (l : List (ℝ × ℝ)) (th al th' al' : ℝ) :
    mkVehicle.a = 0 ∧ mkVehicle.w_e_dot = 0 ∧
    (run mkVehicle l).reset.a = 0 ∧ (run mkVehicle l).reset.w_e_dot = 0 ∧
    (mkVehicle.step th al).x = 0.05 ∧
    (mkVehicle.step th al).v = 5 ∧
    (mkVehicle.step th al).w_e = 100 ∧
    ((run mkVehicle l).reset.step th al).x = 0.05 ∧
    ((run mkVehicle l).reset.step th al).v = 5 ∧
    ((run mkVehicle l).reset.step th al).w_e = 100 ∧
    (mkVehicle.step th al).x = (mkVehicle.step th' al').x ∧
    (mkVehicle.step th al).v = (mkVehicle.step th' al').v ∧
    (mkVehicle.step th al).w_e = (mkVehicle.step th' al').w_e := by
  have hst : (run mkVehicle l).sample_time = 0.01 := by
    rw [run_sample_time]; rfl
  refine ⟨rfl, rfl, rfl, rfl, ?_, ?_, ?_, ?_, ?_, ?_, rfl, rfl, rfl⟩
  · show (0 : ℝ) + 5 * (0.01 : ℝ) = 0.05
    norm_num
  · show (5 : ℝ) + 0 * (0.01 : ℝ) = 5
    norm_num
  · show (100 : ℝ) + 0 * (0.01 : ℝ) = 100
    norm_num
  · show (0 : ℝ) + 5 * (run mkVehicle l).sample_time = 0.05
    rw [hst]; norm_num
  · show (5 : ℝ) + 0 * (run mkVehicle l).sample_time = 5
    norm_num
  · show (100 : ℝ) + 0 * (run mkVehicle l).sample_time = 100
    norm_num

/-- Claim C2: in every `step` call the tire force used in the
acceleration update is `c * s` when `|s| < 1` (strict), and exactly
`F_max` in every other case — `|s| = 1` and arbitrarily negative `s`
included — with no smoothing at the boundary. -/
theorem tire_force_saturation (veh : Vehicle) (th al : ℝ) :
    (veh.step th al).a =
      (veh.integrate.tireForce - veh.integrate.loadForce al) / veh.m ∧
    (|veh.integrate.slip| < 1 →
      veh.integrate.tireForce = veh.c * veh.integrate.slip) ∧
    (1 ≤ |veh.integrate.slip| →
      veh.integrate.tireForce = veh.F_max) := by
  refine ⟨rfl, fun h => ?_, fun h => ?_⟩
  · unfold Vehicle.tireForce
    rw [if_pos h]
    exact rfl
  · unfold Vehicle.tireForce
    rw [if_neg (not_lt.mpr h)]
    exact rfl

theorem mkVehicle_integrate_slip : mkVehicle.integrate.slip = 1.1 := by
  show (0.35 : ℝ) * (100 + 0 * 0.01) * 0.3 / (5 + 0 * 0.01) - 1 = 1.1
  norm_num

theorem mkVehicle_integrate_tireForce :
    mkVehicle.integrate.tireForce = 10000 := by
  unfold Vehicle.tireForce
  rw [mkVehicle_integrate_slip,
    if_neg (by rw [abs_of_nonneg (by norm_num : (0 : ℝ) ≤ 1.1)]; norm_num)]
  exact rfl

/-- The vehicle used to exercise the unsaturated tire-force branch:
engine speed lowered to 50 so that the slip value is 0.05. -/
def lowSlipVehicle : Vehicle := { mkVehicle with w_e := 50 }

theorem lowSlipVehicle_integrate_slip :
    lowSlipVehicle.integrate.slip = 0.05 := by
  show (0.35 : ℝ) * (50 + 0 * 0.01) * 0.3 / (5 + 0 * 0.01) - 1 = 0.05
  norm_num

/-- Witness for C2: the freshly constructed model (slip 1.1) takes the
saturated branch and the lowered-engine-speed model (slip 0.05) the
linear branch. -/
theorem tire_force_saturation_witness :
    mkVehicle.integrate.tireForce = mkVehicle.F_max ∧
    lowSlipVehicle.integrate.tireForce =
      lowSlipVehicle.c * lowSlipVehicle.integrate.slip := by
  constructor
  · exact (tire_force_saturation mkVehicle 0.2 0).2.2
      (by rw [mkVehicle_integrate_slip,
        abs_of_nonneg (by norm_num : (0 : ℝ) ≤ 1.1)]; norm_num)
  · exact (tire_force_saturation lowSlipVehicle 0.2 0).2.1
      (by rw [lowSlipVehicle_integrate_slip,
        abs_of_nonneg (by norm_num : (0 : ℝ) ≤ 0.05)]; norm_num)

/-- Claim C4: with the constructed parameter values, the only partial
operation in `step` is the float division by the post-integration
velocity in the slip computation, so whenever that velocity is nonzero
the checked call completes normally and returns the `step` result. -/
theorem step_total_on_nonzero_velocity (veh : Vehicle) (th al : ℝ)
    (hp : veh.hasDefaultParams)
    (hv : veh.v + veh.a * veh.sample_time ≠ 0) :
    veh.stepChecked th al = some (veh.step th al) := by
  obtain ⟨-, -, -, -, -, hJ, hm, -, -, -, -, -, -⟩ := hp
  unfold Vehicle.stepChecked
  rw [if_neg hv, if_neg (by rw [hm]; norm_num),
    if_neg (by rw [hJ]; norm_num)]

/-- Witness for C4 at the freshly constructed model. -/
theorem step_total_on_nonzero_velocity_witness :
    mkVehicle.stepChecked 0.2 0 = some (mkVehicle.step 0.2 0) :=
  step_total_on_nonzero_velocity mkVehicle 0.2 0 mkVehicle_hasDefaultParams
    (by show (5 : ℝ) + 0 * 0.01 ≠ 0; norm_num)

theorem mkVehicle_integrate_loadForce :
    mkVehicle.integrate.loadForce 0 = 34.05 := by
  unfold Vehicle.loadForce
  show (1.36 : ℝ) * (5 + 0 * 0.01) ^ 2 + 0.01 * (5 + 0 * 0.01) +
    2000 * 9.81 * Real.sin 0 = 34.05
  rw [Real.sin_zero]
  norm_num

theorem mkVehicle_integrate_engineTorque :
    mkVehicle.integrate.engineTorque 1 = 408 := by
  unfold Vehicle.engineTorque
  show (1 : ℝ) * (400 + 0.1 * (100 + 0 * 0.01) +
    -0.0002 * (100 + 0 * 0.01) ^ 2) = 408
  norm_num

/-- Claim C6: when the quantities computed during a `step` call satisfy
`F_x - F_load > 0` and `T_e - GR*r_e*F_load > 0` (so the stored `a` and
`w_e_dot` are positive), the next `step` call leaves velocity and engine
speed non-decreasing. -/
theorem step_monotone_under_positive_net_force (veh : Vehicle)
    (th al th' al' : ℝ) (hp : veh.hasDefaultParams)
    (hF : 0 < veh.integrate.tireForce - veh.integrate.loadForce al)
    (hT : 0 < veh.integrate.engineTorque th -
      veh.GR * veh.r_e * veh.integrate.loadForce al) :
    (veh.step th al).v ≤ ((veh.step th al).step th' al').v ∧
    (veh.step th al).w_e ≤ ((veh.step th al).step th' al').w_e := by
  obtain ⟨-, -, -, -, -, hJ, hm, -, -, -, -, -, hdt⟩ := hp
  have hst : (veh.step th al).sample_time = 0.01 := by
    rw [Vehicle.step_sample_time, hdt]
  have ha : 0 < (veh.step th al).a := by
    rw [Vehicle.step_a, hm]
    exact div_pos hF (by norm_num)
  have hw : 0 < (veh.step th al).w_e_dot := by
    rw [Vehicle.step_w_e_dot, hJ]
    exact div_pos hT (by norm_num)
  constructor
  · rw [Vehicle.step_v (veh.step th al) th' al', hst]
    linarith [mul_pos ha (show (0 : ℝ) < 0.01 by norm_num)]
  · rw [Vehicle.step_w_e (veh.step th al) th' al', hst]
    linarith [mul_pos hw (show (0 : ℝ) < 0.01 by norm_num)]

/-- Witness for C6: from the freshly constructed model at full throttle
on level ground the net force and net torque are positive, and the
following call indeed does not decrease `v` or `w_e`. -/
theorem step_monotone_under_positive_net_force_witness :
    (mkVehicle.step 1 0).v ≤ ((mkVehicle.step 1 0).step 0 0).v ∧
    (mkVehicle.step 1 0).w_e ≤ ((mkVehicle.step 1 0).step 0 0).w_e := by
  apply step_monotone_under_positive_net_force mkVehicle 1 0 0 0
    mkVehicle_hasDefaultParams
  · rw [mkVehicle_integrate_tireForce, mkVehicle_integrate_loadForce]
    norm_num
  · rw [mkVehicle_integrate_engineTorque, mkVehicle_integrate_loadForce]
    show (0 : ℝ) < 408 - 0.35 * 0.3 * 34.05
    norm_num

/-- Claim C8: in the 2000-sample ramp scenario the throttle at index `i`
is the linear interpolation from 0.2 to 0.5 over the first quarter
(with constant increment `0.3/500`), exactly 0.5 on the middle half, and
a linear decay with constant decrement `0.001` on the last quarter; the
incline is `atan2(3,60)` while the position is below 60, `atan2(9,90)`
while it is below 150, and 0 otherwise. -/
theorem ramp_scenario_profiles (i : ℕ) (x : ℝ) (hi : i < 2000) :
    (i < 500 → throttleData i = 0.2 + (0.5 - 0.2) * (i : ℝ) / 500) ∧
    (500 ≤ i → i < 1500 → throttleData i = 0.5) ∧
    (1500 ≤ i → throttleData i = 0.5 - 0.001 * ((i : ℝ) - 1500)) ∧
    (i + 1 < 500 → throttleData (i + 1) - throttleData i = 0.3 / 500) ∧
    (1500 ≤ i → i + 1 < 2000 →
      throttleData (i + 1) - throttleData i = -0.001) ∧
    (x < 60 → alphaProfile x = atan2 3 60) ∧
    (60 ≤ x → x < 150 → alphaProfile x = atan2 9 90) ∧
    (150 ≤ x → alphaProfile x = 0) := by
  have h4 : nSteps / 4 = 500 := rfl
  have h34 : 3 * nSteps / 4 = 1500 := rfl
  refine ⟨fun h => ?_, fun h1 h2 => ?_, fun h => ?_, fun h => ?_,
    fun h1 h2 => ?_, fun h => ?_, fun h1 h2 => ?_, fun h => ?_⟩
  · unfold throttleData
    rw [h4, if_pos h]
    norm_num
  · unfold throttleData
    rw [h4, h34, if_neg (by omega), if_pos h2]
  · unfold throttleData
    rw [h4, h34, if_neg (by omega), if_neg (by omega),
      Nat.cast_sub h]
    push_cast
    ring
  · unfold throttleData
    rw [h4, if_pos h, if_pos (by omega)]
    push_cast
    ring
  · unfold throttleData
    rw [h4, h34, if_neg (by omega), if_neg (by omega),
      if_neg (by omega), if_neg (by omega),
      Nat.cast_sub h1, Nat.cast_sub (by omega)]
    push_cast
    ring
  · unfold alphaProfile
    rw [if_pos h]
  · unfold alphaProfile
    rw [if_neg (not_lt.mpr h1), if_pos h2]
  · unfold alphaProfile
    rw [if_neg (not_lt.mpr (by linarith)), if_neg (not_lt.mpr h)]

/-- Witness for C8 at concrete indices and positions in each segment. -/
theorem ramp_scenario_profiles_witness :
    throttleData 1000 = 0.5 ∧ alphaProfile 200 = 0 := by
  have h := ramp_scenario_profiles 1000 200 (by norm_num)
  exact ⟨h.2.1 (by norm_num) (by norm_num), h.2.2.2.2.2.2.2 (by norm_num)⟩
